import Mathlib

/- Verification of the vuku interactive commit-message generator.
   Shallow embedding translated from the TypeScript source:
   src/index.ts (single-file workflow), src/services/prompt.ts,
   src/services/git.ts, and the shared constants module. -/

namespace Vuku

/-- Answer record collected from the user during one run
(interface CommitAnswers in src/types/index.ts). -/
structure CommitAnswers where
  createBranch : Bool
  branchType : String
  branchName : String
  type : String
  scope : String
  description : String
  hasBreaking : Bool
  body : String
  footer : String

/-- Commit type choices, as (display name, value) pairs
(constant COMMIT_TYPES in the constants module). -/
def COMMIT_TYPES : List (String × String) :=
  [("✨ feat: A new feature", "feat"),
   ("🐛 fix: A bug fix", "fix"),
   ("📚 docs: Documentation only changes", "docs"),
   ("💎 style: Changes that do not affect the meaning of the code", "style"),
   ("♻️ refactor: A code change that neither fixes a bug nor adds a feature", "refactor"),
   ("⚡️ perf: A code change that improves performance", "perf"),
   ("🧪 test: Adding missing tests or correcting existing tests", "test"),
   ("🏗️ build: Changes that affect the build system or external dependencies", "build"),
   ("👷 ci: Changes to CI configuration files and scripts", "ci"),
   ("🔧 chore: Other changes that don't modify src or test files", "chore"),
   ("⏪ revert: Reverts a previous commit", "revert")]

/-- Values selectable from the closed commit-type list. -/
def COMMIT_TYPE_VALUES : List String := COMMIT_TYPES.map (fun p => p.2)

/-- Emoji table, as an association list (constant EMOJI_MAP). -/
def EMOJI_MAP : List (String × String) :=
  [("feat", "✨"),
   ("fix", "🐛"),
   ("docs", "📚"),
   ("style", "💎"),
   ("refactor", "♻️"),
   ("perf", "⚡️"),
   ("test", "🧪"),
   ("build", "🏗️"),
   ("ci", "👷"),
   ("chore", "🔧"),
   ("revert", "⏪")]

/-- JavaScript property access EMOJI_MAP[t]: some glyph, or undefined. -/
def emojiLookup (t : String) : Option String :=
  (EMOJI_MAP.find? (fun p => p.1 == t)).map (fun p => p.2)

/-- JavaScript template interpolation of EMOJI_MAP[t]: an undefined
value prints as the literal text "undefined". -/
def emojiLookupStr (t : String) : String :=
  match emojiLookup t with
  | some e => e
  | none => "undefined"

/-- JavaScript truthiness of a string: the empty string is falsy,
every other string is truthy. -/
def jsTruthy (s : String) : Bool := !(s == "")

/-- Message-building segment of generateCommitMessage
(src/index.ts lines 332-344).  The TypeScript builds
emoji, scope and breaking parts, concatenates the header, then
appends body and footer paragraphs when truthy. -/
def formatCommitMessage (skipEmoji : Bool) (a : CommitAnswers) : String :=
  let emoji := if skipEmoji then "" else emojiLookupStr a.type ++ " "
  let scope := if jsTruthy a.scope then "(" ++ a.scope ++ ")" else ""
  let breaking := if a.hasBreaking then "!" else ""
  let msg0 := emoji ++ a.type ++ scope ++ breaking ++ ": " ++ a.description
  let msg1 := if jsTruthy a.body then msg0 ++ "\n\n" ++ a.body else msg0
  if jsTruthy a.footer then msg1 ++ "\n\n" ++ a.footer else msg1

/-- Branch full name built before checkoutLocalBranch
(src/index.ts line 317): plain template concatenation. -/
def branchFullName (branchType branchName : String) : String :=
  branchType ++ "/" ++ branchName

/-- Modelled from the spec (refinement comparison only): the
normalization the spec ascribes to formatBranchName — lower-case the
name and replace whitespace runs with single hyphens.  No such
normalization exists anywhere in the source. -/
def collapseWs (l : List Char) : List Char :=
  l.foldr
    (fun c acc =>
      if c.isWhitespace then (if acc.head? = some '-' then acc else '-' :: acc)
      else c :: acc) []

/-- Modelled from the spec (refinement comparison only): lower-case
the name and replace each whitespace run with a single hyphen. -/
def normalizeSpec (name : String) : String :=
  ⟨collapseWs (name.data.map Char.toLower)⟩

/-- Modelled from the spec (refinement comparison only):
formatBranchName as the spec describes it, with normalization. -/
def formatBranchName_spec (branchType branchName : String) : String :=
  branchType ++ "/" ++ normalizeSpec branchName

/-- Decomposition of formatCommitMessage into its seven parts, with
each optional segment expressed by its emptiness condition. -/
theorem formatCommitMessage_parts (skipEmoji : Bool) (a : CommitAnswers) :
    formatCommitMessage skipEmoji a =
      (if skipEmoji then "" else emojiLookupStr a.type ++ " ")
        ++ a.type
        ++ (if a.scope = "" then "" else "(" ++ a.scope ++ ")")
        ++ (if a.hasBreaking then "!" else "")
        ++ ": " ++ a.description
        ++ (if a.body = "" then "" else "\n\n" ++ a.body)
        ++ (if a.footer = "" then "" else "\n\n" ++ a.footer) := by
  by_cases hs : a.scope = "" <;> by_cases hb : a.body = "" <;> by_cases hf : a.footer = "" <;>
    simp [formatCommitMessage, jsTruthy, hs, hb, hf, String.append_assoc]

/-- Claim C1: for every CommitAnswers record, the formatted commit
message is the header "{emoji}{type}{(scope)}{!}: {description}" —
scope wrapped in parentheses only when non-empty, the breaking
marker "!" directly before the colon exactly when the breaking flag
is set — followed by a blank-line-separated body only when the body
is non-empty and a blank-line-separated footer only when the footer
is non-empty; absent sections are omitted together with their
separators.  The function is total, so it never fails. -/
theorem formatCommitMessage_header_structure (skipEmoji : Bool) (a : CommitAnswers) :
    ∃ emoji : String,
      (skipEmoji = true → emoji = "") ∧
      formatCommitMessage skipEmoji a =
        emoji ++ a.type
          ++ (if a.scope = "" then "" else "(" ++ a.scope ++ ")")
          ++ (if a.hasBreaking then "!" else "")
          ++ ": " ++ a.description
          ++ (if a.body = "" then "" else "\n\n" ++ a.body)
          ++ (if a.footer = "" then "" else "\n\n" ++ a.footer) := by
  exact ⟨if skipEmoji then "" else emojiLookupStr a.type ++ " ", fun h => by simp [h],
    formatCommitMessage_parts skipEmoji a⟩

/-- Claim C9: commit-message formatting is a pure deterministic
function of the answers and the skip-emoji option: any two answer
records agreeing on type, scope, description, breaking flag, body and
footer format identically under the same skip-emoji option — no other
field and no hidden state affects the output. -/
theorem formatCommitMessage_deterministic (skip1 skip2 : Bool) (a1 a2 : CommitAnswers)
    (hskip : skip1 = skip2) (ht : a1.type = a2.type) (hs : a1.scope = a2.scope)
    (hd : a1.description = a2.description) (hbr : a1.hasBreaking = a2.hasBreaking)
    (hbody : a1.body = a2.body) (hf : a1.footer = a2.footer) :
    formatCommitMessage skip1 a1 = formatCommitMessage skip2 a2 := by
  simp [formatCommitMessage, hskip, ht, hs, hd, hbr, hbody, hf]

/-- Witness for claim C9: two records that differ only in the
branch-related fields format to the same message. -/
theorem formatCommitMessage_deterministic_witness :
    formatCommitMessage false ⟨false, "", "", "feat", "auth", "add OAuth2 support", false, "", ""⟩
      = formatCommitMessage false
          ⟨true, "feature", "oauth", "feat", "auth", "add OAuth2 support", false, "", ""⟩ :=
  formatCommitMessage_deterministic false false _ _ rfl rfl rfl rfl rfl rfl rfl

/-- Counterexample for claim C2: the code performs no normalization —
it concatenates the branch type and the raw branch name, so the input
("feature", "Add New Thing") yields "feature/Add New Thing", not the
"feature/add-new-thing" the claim demands (which is what the
spec-modelled normalizing variant produces). -/
theorem branchFullName_counterexample :
    branchFullName "feature" "Add New Thing" = "feature/Add New Thing" ∧
    formatBranchName_spec "feature" "Add New Thing" = "feature/add-new-thing" ∧
    branchFullName "feature" "Add New Thing" ≠ "feature/add-new-thing" := by
  refine ⟨rfl, by decide, by decide⟩

/-- Claim C2 as amended: the branch full name is
"{branchType}/{branchName}" with the name used verbatim (the function
is pure and total); it agrees with the spec's normalizing
formatBranchName exactly when the name is already in normalized
form. -/
theorem branchFullName_no_normalization (branchType branchName : String) :
    branchFullName branchType branchName = branchType ++ "/" ++ branchName ∧
    (branchFullName branchType branchName = formatBranchName_spec branchType branchName
      ↔ normalizeSpec branchName = branchName) := by
  refine ⟨rfl, ?_⟩
  constructor
  · intro h
    simp [branchFullName, formatBranchName_spec, String.ext_iff, String.data_append] at h
    exact (String.ext h).symm
  · intro h
    simp [branchFullName, formatBranchName_spec, h]

/-- Per-file record returned by GitService.getAllModifiedFiles
(git.ts 34-55): path plus staged flag. -/
structure FileStatus where
  file : String
  staged : Bool

/-- Local filesToStage of PromptService.handleFileStaging, select
branch (prompt.ts lines 76-78): selected files that are not already
staged. -/
def filesToStage (modifiedFiles : List FileStatus) (selectedFiles : List String) : List String :=
  let stagedFiles := modifiedFiles.filter (fun f => f.staged)
  selectedFiles.filter (fun file => (stagedFiles.find? (fun f => f.file == file)).isNone)

/-- Local filesToUnstage of PromptService.handleFileStaging, select
branch (prompt.ts lines 79-81): previously staged files absent from
the selection. -/
def filesToUnstage (modifiedFiles : List FileStatus) (selectedFiles : List String) : List String :=
  ((modifiedFiles.filter (fun f => f.staged)).filter
      (fun f => !(selectedFiles.contains f.file))).map (fun f => f.file)

/-- Git index after the select action: starting from the staged
files, the code stages filesToStage and unstages filesToUnstage
(prompt.ts lines 88-98), with the set semantics of
GitService.stageFiles and unstageFiles (spec section 4.2:
idempotent add / remove on the index). -/
def stagedAfterSelect (modifiedFiles : List FileStatus) (selectedFiles : List String) : List String :=
  (((modifiedFiles.filter (fun f => f.staged)).map (fun f => f.file))
      ++ filesToStage modifiedFiles selectedFiles).filter
    (fun f => !((filesToUnstage modifiedFiles selectedFiles).contains f))

/-- Counterexample for claim C3: with unstaged files a, b, staged
file c and the selection {b, c}, the code unstages nothing (c is in
the selection, so it stays staged) and the final staged set is
{b, c}, not {b} as claimed. -/
theorem stagingReconciliation_counterexample :
    filesToUnstage [⟨"a", false⟩, ⟨"b", false⟩, ⟨"c", true⟩] ["b", "c"] = [] ∧
    stagedAfterSelect [⟨"a", false⟩, ⟨"b", false⟩, ⟨"c", true⟩] ["b", "c"] = ["c", "b"] ∧
    stagedAfterSelect [⟨"a", false⟩, ⟨"b", false⟩, ⟨"c", true⟩] ["b", "c"] ≠ ["b"] := by
  refine ⟨rfl, rfl, by decide⟩

/-- Claim C3 as amended: given unstaged {a, b}, staged {c} and a
selection of {b, c}, the system stages exactly {b}, unstages nothing
(a checked previously-staged file stays staged), and the final staged
set is {b, c}. -/
theorem stagingReconciliation_amended :
    filesToStage [⟨"a", false⟩, ⟨"b", false⟩, ⟨"c", true⟩] ["b", "c"] = ["b"] ∧
    filesToUnstage [⟨"a", false⟩, ⟨"b", false⟩, ⟨"c", true⟩] ["b", "c"] = [] ∧
    stagedAfterSelect [⟨"a", false⟩, ⟨"b", false⟩, ⟨"c", true⟩] ["b", "c"] = ["c", "b"] := by
  refine ⟨rfl, rfl, rfl⟩

/-- GitService.isBranchPublished (git.ts lines 101-117): the outcome
of the ls-remote query is passed in as an Except value — ok carries
the raw output of `git ls-remote --heads origin branchName` (which is
non-empty exactly when the remote reports the branch), error carries
the failure message.  The catch branch returns false. -/
def isBranchPublished (queryResult : Except String String) : Bool :=
  match queryResult with
  | Except.ok result => decide (result.length > 0)
  | Except.error _ => false

/-- Claim C8: isBranchPublished returns true exactly when the remote
query succeeds with a non-empty answer (the branch exists on the
remote); any query failure yields false rather than propagating. -/
theorem isBranchPublished_spec (q : Except String String) :
    (isBranchPublished q = true ↔ ∃ out, q = Except.ok out ∧ out.length > 0) ∧
    (∀ e, q = Except.error e → isBranchPublished q = false) := by
  cases q <;> simp [isBranchPublished]

/-- Result of an inquirer validate callback: true, or an error
message string shown to the user before re-prompting. -/
inductive ValidateResult where
  | ok : ValidateResult
  | err : String → ValidateResult
deriving DecidableEq

/-- Character class of the regex /^[a-zA-Z0-9-_/]+$/ used by the
branch-name validator (prompt.ts line 241). -/
def isBranchNameChar (c : Char) : Bool :=
  c.isAlpha || c.isDigit || c == '-' || c == '_' || c == '/'

/-- Branch-name validate callback of promptForBranchDetails
(prompt.ts lines 239-245).  For a non-empty input the regex
/^[a-zA-Z0-9-_/]+$/ tests that every character is in the class. -/
def validateBranchName (input : String) : ValidateResult :=
  if input.length == 0 then ValidateResult.err "Branch name is required"
  else if !(input.data.all isBranchNameChar) then
    ValidateResult.err
      "Branch name can only contain letters, numbers, hyphens, underscores, and forward slashes"
  else ValidateResult.ok

/-- Claim C5: the branch-name validator accepts an input exactly when
it is non-empty and every character is a letter, a digit, a hyphen,
an underscore or a forward slash; on any other input it returns an
error message string (the prompt machinery then re-prompts), never a
failure. -/
theorem validateBranchName_ok_iff (input : String) :
    (validateBranchName input = ValidateResult.ok ↔
      input ≠ "" ∧ ∀ c ∈ input.data,
        ('A' ≤ c ∧ c ≤ 'Z') ∨ ('a' ≤ c ∧ c ≤ 'z') ∨ ('0' ≤ c ∧ c ≤ '9') ∨
          c = '-' ∨ c = '_' ∨ c = '/') ∧
    (validateBranchName input ≠ ValidateResult.ok →
      ∃ msg, validateBranchName input = ValidateResult.err msg) := by
  have hchar : ∀ c : Char, isBranchNameChar c = true ↔
      (('A' ≤ c ∧ c ≤ 'Z') ∨ ('a' ≤ c ∧ c ≤ 'z') ∨ ('0' ≤ c ∧ c ≤ '9') ∨
        c = '-' ∨ c = '_' ∨ c = '/') := by
    intro c
    simp [isBranchNameChar, Char.isAlpha, Char.isUpper, Char.isLower, Char.isDigit,
      Char.le_def, ge_iff_le, or_assoc]
  have hempty : input.length = 0 → input = "" := by
    intro h
    cases input with
    | mk d =>
      cases d with
      | nil => rfl
      | cons a as => simp [String.length] at h
  constructor
  · constructor
    · intro hok
      by_cases h0 : (input.length == 0) = true
      · simp [validateBranchName, h0] at hok
      · by_cases hall : input.data.all isBranchNameChar = true
        · refine ⟨fun habs => h0 (by simp [habs]), fun c hc => ?_⟩
          exact (hchar c).mp (List.all_eq_true.mp hall c hc)
        · simp [validateBranchName, h0, hall] at hok
    · intro hc
      obtain ⟨hne, hcs⟩ := hc
      have h0 : (input.length == 0) = false := by
        simp only [beq_eq_false_iff_ne, ne_eq]
        intro habs
        exact hne (hempty habs)
      have hall : input.data.all isBranchNameChar = true :=
        List.all_eq_true.mpr (fun c hc => (hchar c).mpr (hcs c hc))
      simp [validateBranchName, h0, hall]
  · intro hne
    cases hv : validateBranchName input with
    | ok => exact absurd hv hne
    | err m => exact ⟨m, rfl⟩

/-- Branch type choices, as (display name, value) pairs (constant
BRANCH_TYPES in the constants module). -/
def BRANCH_TYPES : List (String × String) :=
  [("feature - For new features", "feature"),
   ("bugfix - For bug fixes", "bugfix"),
   ("hotfix - For urgent fixes", "hotfix"),
   ("release - For release branches", "release"),
   ("support - For support branches", "support")]

/-- Protected branches (constant MAIN_BRANCHES). -/
def MAIN_BRANCHES : List String := ["main", "master"]

/-- JavaScript String.prototype.startsWith: the search string is a
prefix of the character sequence. -/
def jsStartsWith (s searchString : String) : Bool :=
  searchString.data.isPrefixOf s.data

/-- Values of BRANCH_TYPES, as computed at the top of
promptForBranchCreation (prompt.ts line 106). -/
def branchPrefixValues : List String := BRANCH_TYPES.map (fun t => t.2)

/-- Feature-branch test of promptForBranchCreation (prompt.ts lines
107-111): the current branch starts with some branch-type value
followed by "/" or "-". -/
def isOnFeatureBranch (currentBranch : String) : Bool :=
  branchPrefixValues.any
    (fun p => jsStartsWith currentBranch (p ++ "/") || jsStartsWith currentBranch (p ++ "-"))

/-- Observable outcome of PromptService.promptForBranchCreation:
result is the returned boolean, or none when the function calls
process.exit(0); promptCount counts the confirm prompts shown. -/
structure BranchCreationOutcome where
  result : Option Bool
  promptCount : Nat
deriving DecidableEq

/-- PromptService.promptForBranchCreation (prompt.ts lines 104-174)
as a function of the current branch and the user's two confirm
responses. -/
def promptForBranchCreation (currentBranch : String)
    (shouldCreateBranch confirmContinue : Bool) : BranchCreationOutcome :=
  if isOnFeatureBranch currentBranch then ⟨some false, 0⟩
  else if MAIN_BRANCHES.contains currentBranch then
    if shouldCreateBranch then ⟨some true, 1⟩
    else if confirmContinue then ⟨some false, 2⟩
    else ⟨none, 2⟩
  else ⟨some shouldCreateBranch, 1⟩

/-- Claim C10: on a branch whose name starts with one of the
branch-type values (feature, bugfix, hotfix, release, support)
followed by "/" or "-", promptForBranchCreation returns false
immediately, showing no prompt at all, for every combination of
user responses. -/
theorem promptForBranchCreation_feature_branch (currentBranch p : String)
    (shouldCreateBranch confirmContinue : Bool)
    (hp : p ∈ branchPrefixValues)
    (h : jsStartsWith currentBranch (p ++ "/") = true ∨
         jsStartsWith currentBranch (p ++ "-") = true) :
    promptForBranchCreation currentBranch shouldCreateBranch confirmContinue
      = ⟨some false, 0⟩ := by
  have hfeat : isOnFeatureBranch currentBranch = true := by
    refine List.any_eq_true.mpr ⟨p, hp, ?_⟩
    rcases h with h | h <;> simp [h]
  simp [promptForBranchCreation, hfeat]

/-- Witness for claim C10: on branch "feature/foo" the function
returns false with no prompt shown, whatever the responses. -/
theorem promptForBranchCreation_feature_branch_witness :
    ("feature" ∈ branchPrefixValues ∧
      jsStartsWith "feature/foo" ("feature" ++ "/") = true) ∧
    promptForBranchCreation "feature/foo" true true = ⟨some false, 0⟩ :=
  ⟨⟨by decide, by decide⟩,
    promptForBranchCreation_feature_branch "feature/foo" "feature" true true
      (by decide) (Or.inl (by decide))⟩

/-- Snapshot of `git status` as consumed by the workflow
(simple-git status fields used in src/index.ts). -/
structure GitStatus where
  not_added : List String
  modified : List String
  deleted : List String
  staged : List String
  created : List String

/-- Choice offered by handleFileStaging when unstaged files exist. -/
inductive StagingAction where
  | select : StagingAction
  | all : StagingAction
  | cancel : StagingAction

/-- User responses consumed by one run of the workflow; every prompt
answer is given up front so the run is a pure function of them
(a response is simply unused when its prompt is never reached). -/
structure WorkflowResponses where
  stagingAction : StagingAction
  selectedFiles : List String
  shouldCreateBranch : Bool
  confirmContinue : Bool
  answers : CommitAnswers
  confirmCommit : Bool
  shouldPush : Bool

/-- Observable outcome of one workflow run: the process exit code,
the branch created (none when no branch was created), the committed
message (none when no commit was made), the branch pushed to, and
whether the commit-detail questions were presented. -/
structure Outcome where
  exitCode : Nat
  branchCreated : Option String
  committed : Option String
  pushedTo : Option String
  commitDetailsPrompted : Bool

/-- handleFileStaging of src/index.ts lines 127-194, as its returned
boolean: with no unstaged files it reports "No files to commit" and
returns false when nothing is staged either, true otherwise; with
unstaged files the user picks cancel (false), stage-all (true), or a
selection (false exactly when the selection is empty). -/
def handleFileStaging (st : GitStatus) (action : StagingAction)
    (selectedFiles : List String) : Bool :=
  let unstagedFiles := st.not_added ++ st.modified ++ st.deleted
  if unstagedFiles.isEmpty then
    let stagedFiles := st.staged ++ st.created
    !stagedFiles.isEmpty
  else
    match action with
    | StagingAction.cancel => false
    | StagingAction.all => true
    | StagingAction.select => !selectedFiles.isEmpty

/-- generateCommitMessage of src/index.ts lines 196-392 as a pure
function from the git state, the invocation option and the user
responses to the observable outcome.  VCS mutations are modelled as
succeeding (spec section 1 treats the VCS engine as an external
collaborator assumed correct); process.exit(0) paths return
immediately with exit code 0. -/
def generateCommitMessage (skipEmoji : Bool) (currentBranch : String)
    (st : GitStatus) (r : WorkflowResponses) : Outcome :=
  let isOnMainBranch := MAIN_BRANCHES.contains currentBranch
  let filesStaged := handleFileStaging st r.stagingAction r.selectedFiles
  if !filesStaged then
    -- process.exit(0), before any commit-detail prompt
    ⟨0, none, none, none, false⟩
  else if isOnMainBranch && !r.shouldCreateBranch && !r.confirmContinue then
    -- "Operation cancelled", process.exit(0)
    ⟨0, none, none, none, false⟩
  else
    let createBranch := r.shouldCreateBranch
    let a := r.answers
    -- the commit-detail questions are presented here
    let created := if createBranch then some (branchFullName a.branchType a.branchName) else none
    let msg := formatCommitMessage skipEmoji a
    if r.confirmCommit then
      let branchAfter := if createBranch then branchFullName a.branchType a.branchName
                         else currentBranch
      ⟨0, created, some msg, if r.shouldPush then some branchAfter else none, true⟩
    else
      ⟨0, created, none, none, true⟩

/-- Claim C6: with no modified files at all (unstaged and staged sets
both empty) the workflow reports nothing to commit and exits with
code 0, presenting no commit-detail prompt and making no commit (and
creating no branch), for every option and every set of responses. -/
theorem workflow_nothing_to_commit (skipEmoji : Bool) (currentBranch : String)
    (st : GitStatus) (r : WorkflowResponses)
    (h1 : st.not_added = []) (h2 : st.modified = []) (h3 : st.deleted = [])
    (h4 : st.staged = []) (h5 : st.created = []) :
    (generateCommitMessage skipEmoji currentBranch st r).exitCode = 0 ∧
    (generateCommitMessage skipEmoji currentBranch st r).committed = none ∧
    (generateCommitMessage skipEmoji currentBranch st r).commitDetailsPrompted = false ∧
    (generateCommitMessage skipEmoji currentBranch st r).branchCreated = none := by
  simp [generateCommitMessage, handleFileStaging, h1, h2, h3, h4, h5]

/-- Witness for claim C6: a concrete run on an empty status. -/
theorem workflow_nothing_to_commit_witness :
    (⟨[], [], [], [], []⟩ : GitStatus).not_added = [] ∧
    (generateCommitMessage false "main" ⟨[], [], [], [], []⟩
        ⟨StagingAction.all, [], true, true,
          ⟨false, "", "", "feat", "", "x", false, "", ""⟩, true, true⟩).committed = none :=
  ⟨rfl,
    (workflow_nothing_to_commit false "main" ⟨[], [], [], [], []⟩
      ⟨StagingAction.all, [], true, true,
        ⟨false, "", "", "feat", "", "x", false, "", ""⟩, true, true⟩
      rfl rfl rfl rfl rfl).2.1⟩

/-- Claim C7: on a protected branch (main or master), when the user
declines branch creation and also declines the direct-commit
confirmation, the workflow exits with code 0, creates no branch and
makes no commit — on every path (including an earlier clean exit in
the staging step). -/
theorem workflow_protected_branch_double_decline (skipEmoji : Bool)
    (currentBranch : String) (st : GitStatus) (r : WorkflowResponses)
    (hmain : currentBranch ∈ MAIN_BRANCHES)
    (hdecline : r.shouldCreateBranch = false)
    (hconfirm : r.confirmContinue = false) :
    (generateCommitMessage skipEmoji currentBranch st r).exitCode = 0 ∧
    (generateCommitMessage skipEmoji currentBranch st r).branchCreated = none ∧
    (generateCommitMessage skipEmoji currentBranch st r).committed = none := by
  by_cases hstage : handleFileStaging st r.stagingAction r.selectedFiles = true
  · simp [generateCommitMessage, hstage, hdecline, hconfirm, hmain]
  · simp only [Bool.not_eq_true] at hstage
    simp [generateCommitMessage, hstage]

/-- Witness for claim C7: a concrete run on main with both
confirmations declined exits 0 with no branch and no commit. -/
theorem workflow_protected_branch_double_decline_witness :
    "main" ∈ MAIN_BRANCHES ∧
    (generateCommitMessage false "main" ⟨["f.txt"], [], [], [], []⟩
        ⟨StagingAction.all, [], false, false,
          ⟨false, "", "", "feat", "", "x", false, "", ""⟩, true, true⟩).committed = none :=
  ⟨by decide,
    (workflow_protected_branch_double_decline false "main" ⟨["f.txt"], [], [], [], []⟩
      ⟨StagingAction.all, [], false, false,
        ⟨false, "", "", "feat", "", "x", false, "", ""⟩, true, true⟩
      (by decide) rfl rfl).2.2⟩

/-- Glyph column of the emoji table. -/
def emojiGlyphs : List String := EMOJI_MAP.map (fun p => p.2)

/-- Every character occurring in some glyph of the emoji table. -/
def glyphChars : List Char := (emojiGlyphs.map String.data).flatten

/-- Counterexample for claim C4: with skip-emoji = true and type
"feat", a record whose description is the glyph "✨" formats to
"feat: ✨", which does contain a glyph from the emoji table — the
formatter does not sanitize user-supplied fields, so the output is
not glyph-free for every record. -/
theorem skipEmoji_glyph_counterexample :
    "✨" ∈ emojiGlyphs ∧
    formatCommitMessage true ⟨false, "", "", "feat", "", "✨", false, "", ""⟩ = "feat: ✨" ∧
    "✨".data <:+: ("feat: ✨" : String).data := by
  exact ⟨by decide, rfl, ⟨"feat: ".data, [], by decide⟩⟩

/-- Characters of the scope segment are the parentheses or
characters of the scope itself. -/
theorem mem_scopeSeg {s : String} {c : Char}
    (h : c ∈ (if s = "" then "" else "(" ++ s ++ ")").data) :
    c = '(' ∨ c = ')' ∨ c ∈ s.data := by
  split at h
  · rw [show ("" : String).data = [] from rfl] at h
    simp at h
  · simp [String.data_append] at h
    tauto

/-- Characters of a blank-line-separated optional section are the
newline or characters of the section text itself. -/
theorem mem_nlSeg {s : String} {c : Char}
    (h : c ∈ (if s = "" then "" else "\n\n" ++ s).data) :
    c = '\n' ∨ c ∈ s.data := by
  split at h
  · rw [show ("" : String).data = [] from rfl] at h
    simp at h
  · simp [String.data_append] at h
    tauto

/-- Characters of the breaking marker segment. -/
theorem mem_breakSeg {b : Bool} {c : Char}
    (h : c ∈ (if b then "!" else "").data) : c = '!' := by
  cases b
  · rw [show (if (false : Bool) then "!" else "").data = ([] : List Char) from rfl] at h
    simp at h
  · rw [show (if (true : Bool) then "!" else "").data = ['!'] from rfl] at h
    simp at h
    exact h

/-- No character of any commit-type value is a glyph character. -/
theorem type_chars_not_glyph : ∀ t ∈ COMMIT_TYPE_VALUES, ∀ c ∈ t.data, c ∉ glyphChars := by
  decide

/-- None of the fixed separator characters inserted by the formatter
is a glyph character. -/
theorem fixed_chars_not_glyph :
    '(' ∉ glyphChars ∧ ')' ∉ glyphChars ∧ '!' ∉ glyphChars ∧ ':' ∉ glyphChars ∧
    ' ' ∉ glyphChars ∧ '\n' ∉ glyphChars := by
  decide

/-- Every glyph of the emoji table is a non-empty string. -/
theorem glyph_data_nonempty : ∀ g ∈ emojiGlyphs, g.data ≠ [] := by
  decide

/-- Every character of every glyph is a glyph character. -/
theorem glyph_chars_cover : ∀ g ∈ emojiGlyphs, ∀ c ∈ g.data, c ∈ glyphChars := by
  decide

/-- Claim C4 as amended: for every chosen type (the commit type is a
closed choice, and every choosable type has a mapped glyph), the
formatted message begins with that glyph followed by a space unless
skip-emoji is set; with skip-emoji = true the formatter inserts no
glyph of its own — whenever the user-supplied scope, description,
body and footer contain no character of any glyph in the emoji
table, the output contains no glyph from the table.  (Without that
proviso the original claim fails: a glyph typed into a free-text
field reappears in the output.) -/
theorem emoji_handling_amended (a : CommitAnswers) (htype : a.type ∈ COMMIT_TYPE_VALUES) :
    (∃ g, emojiLookup a.type = some g ∧
      ∃ rest, formatCommitMessage false a = g ++ " " ++ rest) ∧
    ((∀ c ∈ a.scope.data, c ∉ glyphChars) →
     (∀ c ∈ a.description.data, c ∉ glyphChars) →
     (∀ c ∈ a.body.data, c ∉ glyphChars) →
     (∀ c ∈ a.footer.data, c ∉ glyphChars) →
     ∀ g ∈ emojiGlyphs, ¬ (g.data <:+: (formatCommitMessage true a).data)) := by
  have hmap : ∃ g, emojiLookup a.type = some g ∧ emojiLookupStr a.type = g := by
    simp only [COMMIT_TYPE_VALUES, COMMIT_TYPES, List.map_cons, List.map_nil,
      List.mem_cons, List.not_mem_nil, or_false] at htype
    rcases htype with h | h | h | h | h | h | h | h | h | h | h <;> rw [h] <;>
      exact ⟨_, rfl, rfl⟩
  constructor
  · obtain ⟨g, hg, hgs⟩ := hmap
    refine ⟨g, hg,
      a.type
        ++ (if a.scope = "" then "" else "(" ++ a.scope ++ ")")
        ++ (if a.hasBreaking then "!" else "")
        ++ ": " ++ a.description
        ++ (if a.body = "" then "" else "\n\n" ++ a.body)
        ++ (if a.footer = "" then "" else "\n\n" ++ a.footer), ?_⟩
    rw [formatCommitMessage_parts, hgs]
    simp [String.append_assoc]
  · intro hsc hde hbo hfo g hg hinf
    have hout : ∀ c ∈ (formatCommitMessage true a).data, c ∉ glyphChars := by
      intro c hc
      rw [formatCommitMessage_parts] at hc
      simp only [if_true, String.data_append, List.mem_append] at hc
      rcases hc with ((((((hc | hc) | hc) | hc) | hc) | hc) | hc) | hc
      · simp at hc
      · exact type_chars_not_glyph a.type htype c hc
      · rcases mem_scopeSeg hc with h | h | h
        · rw [h]; exact fixed_chars_not_glyph.1
        · rw [h]; exact fixed_chars_not_glyph.2.1
        · exact hsc c h
      · rw [mem_breakSeg hc]; exact fixed_chars_not_glyph.2.2.1
      · simp at hc
        rcases hc with h | h
        · rw [h]; exact fixed_chars_not_glyph.2.2.2.1
        · rw [h]; exact fixed_chars_not_glyph.2.2.2.2.1
      · exact hde c hc
      · rcases mem_nlSeg hc with h | h
        · rw [h]; exact fixed_chars_not_glyph.2.2.2.2.2
        · exact hbo c h
      · rcases mem_nlSeg hc with h | h
        · rw [h]; exact fixed_chars_not_glyph.2.2.2.2.2
        · exact hfo c h
    obtain ⟨s, t, hst⟩ := hinf
    obtain ⟨c, hc⟩ := List.exists_mem_of_ne_nil g.data (glyph_data_nonempty g hg)
    have h1 : c ∈ glyphChars := glyph_chars_cover g hg c hc
    have h2 : c ∈ (formatCommitMessage true a).data := by
      rw [← hst]
      simp only [List.mem_append]
      exact Or.inl (Or.inr hc)
    exact hout c h2 h1

/-- Witness for claim C4 (amended): concrete glyph-free answers with
type "feat"; without skip-emoji the output starts with "✨ ", and with
skip-emoji no glyph occurs in it. -/
theorem emoji_handling_amended_witness :
    "feat" ∈ COMMIT_TYPE_VALUES ∧
    ((∃ g, emojiLookup "feat" = some g ∧
      ∃ rest, formatCommitMessage false ⟨false, "", "", "feat", "auth", "add x", false, "", ""⟩
        = g ++ " " ++ rest) ∧
    ((∀ c ∈ ("auth" : String).data, c ∉ glyphChars) →
     (∀ c ∈ ("add x" : String).data, c ∉ glyphChars) →
     (∀ c ∈ ("" : String).data, c ∉ glyphChars) →
     (∀ c ∈ ("" : String).data, c ∉ glyphChars) →
     ∀ g ∈ emojiGlyphs,
       ¬ (g.data <:+:
          (formatCommitMessage true ⟨false, "", "", "feat", "auth", "add x", false, "", ""⟩).data))) :=
  ⟨by decide,
    emoji_handling_amended ⟨false, "", "", "feat", "auth", "add x", false, "", ""⟩ (by decide)⟩

end Vuku
